import Mathlib

/-!
Verification of the Sudoku solving core of `src/sudoku.py`.

The grid is embedded as a list of rows of natural numbers (`0` = empty cell),
mirroring the 9×9 NumPy integer array of the source.  `simple_algorithm`
below is a step-by-step shallow embedding of the function of the same name
(src/sudoku.py lines 56–165), including its actual data flow:

* per pass, candidates are computed once for every empty cell and stored in
  an association list (the `candidates` dict of the source, insertion order
  row-major);
* the naked-single scan walks that list and fills every cell whose stored
  candidate list is a singleton;
* the hidden-single scan re-reads emptiness from the *current* grid but
  candidate sets from the *stale* per-pass table, exactly as the source does;
* crucially, the source's placement coordinates come from the enclosing-scope
  variables `r`, `c` leaked into the list comprehensions at lines 118, 130 and
  148 (`[(r, c) for r_cell, c_cell in ...]`), not from the filtered cell
  `(r_cell, c_cell)`.  At line 118 the ambient `c` is the column of the last
  key of the `candidates` dict while checking digit 1 (nothing has rebound `c`
  since the dict was filled and the naked-single scan ran) and `8` for every
  later digit (the previous digit's box loops leave `c = 8`); at line 130 the
  ambient `r` is `8` (the row loop of line 113 has completed); at line 148 the
  ambient `(r, c)` is the bottom-right cell of the current box (the loops of
  lines 142–143 have completed).  The embedding reproduces those targets.

The while-loop of the source is embedded with explicit fuel, returning `none`
when the fuel is exhausted before a pass makes no placement.
-/

namespace Sudoku

/-- A grid: list of rows, each a list of entries, `0` meaning empty. -/
abbrev Grid := List (List Nat)

/-- `nth l i d`: the `i`-th element of `l`, or `d` when out of range. -/
def nth {α : Type} : List α → Nat → α → α
  | [], _, d => d
  | x :: _, 0, _ => x
  | _ :: xs, i + 1, d => nth xs i d

/-- `setN l i v`: `l` with the `i`-th element replaced by `v` (unchanged when
out of range). -/
def setN {α : Type} : List α → Nat → α → List α
  | [], _, _ => []
  | _ :: xs, 0, v => v :: xs
  | x :: xs, i + 1, v => x :: setN xs i v

/-- Cell read `grid[r, c]` (default 0 out of range). -/
def Grid.get (g : Grid) (r c : Nat) : Nat := nth (nth g r []) c 0

/-- Cell write `grid[r, c] = v`. -/
def Grid.setCell (g : Grid) (r c v : Nat) : Grid := setN g r (setN (nth g r []) c v)

/-- Well-formed 9×9 grid shape. -/
def WF (g : Grid) : Prop := g.length = 9 ∧ ∀ row ∈ g, row.length = 9

instance (g : Grid) : Decidable (WF g) :=
  inferInstanceAs (Decidable (g.length = 9 ∧ ∀ row ∈ g, row.length = 9))

/-- Membership test used for Python's `in` on rows/columns/boxes. -/
def memb (v : Nat) : List Nat → Bool
  | [] => false
  | x :: xs => if x == v then true else memb v xs

/-- src/sudoku.py line 51–53: starting row or column index of a 3×3 box. -/
def get_box_start (i : Nat) : Nat := i / 3 * 3

/-- The row slice `grid[r, :]` (all 9 entries, zeros included). -/
def rowVals (g : Grid) (r : Nat) : List Nat := (List.range 9).map (fun c => g.get r c)

/-- The column slice `grid[:, c]`. -/
def colVals (g : Grid) (c : Nat) : List Nat := (List.range 9).map (fun r => g.get r c)

/-- The flattened 3×3 box containing `(r, c)`. -/
def boxVals (g : Grid) (r c : Nat) : List Nat :=
  (List.range 3).flatMap fun i =>
    (List.range 3).map fun j => g.get (get_box_start r + i) (get_box_start c + j)

/-- `set(range(1, 10))` in its iteration order. -/
def digits19 : List Nat := (List.range 9).map (fun i => i + 1)

/-- src/sudoku.py lines 76–93: candidates of one empty cell, `{1..9}` with the
values of the row, the column and the box removed. -/
def candidatesOf (g : Grid) (r c : Nat) : List Nat :=
  digits19.filter fun v =>
    !memb v (rowVals g r) && !memb v (colVals g c) && !memb v (boxVals g r c)

/-- All 81 cells in row-major order (the iteration order of lines 71–72). -/
def cellsRM : List (Nat × Nat) :=
  (List.range 9).flatMap fun r => (List.range 9).map fun c => (r, c)

/-- The empty cells of `g`, row-major. -/
def emptyCells (g : Grid) : List (Nat × Nat) :=
  cellsRM.filter fun rc => g.get rc.1 rc.2 == 0

/-- The `candidates` dict of a pass: keys in insertion (row-major) order. -/
def candsList (g : Grid) : List ((Nat × Nat) × List Nat) :=
  (emptyCells g).map fun rc => (rc, candidatesOf g rc.1 rc.2)

/-- Dict lookup `candidates[(r, c)]` (every key looked up by the source is
present; `[]` is returned for absent keys). -/
def lookupCand (cands : List ((Nat × Nat) × List Nat)) (r c : Nat) : List Nat :=
  match cands.find? (fun e => e.1.1 == r && e.1.2 == c) with
  | some e => e.2
  | none => []

/-- Common shape of the four placement loops of the source: fold a list,
and where the trigger condition holds write one cell and set the
`made_a_placement` flag. -/
def placeFold {α : Type} (cond : Grid → α → Bool) (wr : Grid → α → Grid)
    (L : List α) (s : Grid × Bool) : Grid × Bool :=
  L.foldl (fun s x => if cond s.1 x then (wr s.1 x, true) else s) s

/-- Trigger of the naked-single scan: the stored candidate set is a
singleton (line 97). -/
def nakedCond : Grid → (Nat × Nat) × List Nat → Bool := fun _ e => e.2.length == 1

/-- Write of the naked-single scan: pop the single candidate and store it in
the entry's own cell (lines 99–100). -/
def nakedWr : Grid → (Nat × Nat) × List Nat → Grid := fun g e =>
  g.setCell e.1.1 e.1.2 (e.2.headD 0)

/-- src/sudoku.py lines 96–102: the naked-single scan over the candidates
dict. -/
def nakedStep (cands : List ((Nat × Nat) × List Nat)) (g : Grid) : Grid × Bool :=
  placeFold nakedCond nakedWr cands (g, false)

/-- Lines 115–118: the currently empty cells of row `r` whose stale candidate
set contains `value` (the filter condition of `can_hold_value`). -/
def rowHolders (cands : List ((Nat × Nat) × List Nat)) (g : Grid) (value r : Nat) :
    List (Nat × Nat) :=
  ((List.range 9).filterMap fun c => if g.get r c == 0 then some (r, c) else none).filter
    fun rc => memb value (lookupCand cands rc.1 rc.2)

/-- Lines 113–125: the row checks for one digit.  When a row has exactly one
holder the written cell is `(r, tcol)`: the comprehension at line 118 yields
the ambient `(r, c)`, so the column is the leaked `c`, not the holder's. -/
def hiddenRowsStep (cands : List ((Nat × Nat) × List Nat)) (value tcol : Nat)
    (s : Grid × Bool) : Grid × Bool :=
  placeFold (fun g r => (rowHolders cands g value r).length == 1)
    (fun g r => g.setCell r tcol value) (List.range 9) s

/-- Lines 128–130: holders of `value` among the empty cells of column `c`. -/
def colHolders (cands : List ((Nat × Nat) × List Nat)) (g : Grid) (value c : Nat) :
    List (Nat × Nat) :=
  ((List.range 9).filterMap fun r => if g.get r c == 0 then some (r, c) else none).filter
    fun rc => memb value (lookupCand cands rc.1 rc.2)

/-- Lines 127–135: the column checks; the leaked ambient `r` is `8`, so the
written cell is `(8, c)`. -/
def hiddenColsStep (cands : List ((Nat × Nat) × List Nat)) (value : Nat)
    (s : Grid × Bool) : Grid × Bool :=
  placeFold (fun g c => (colHolders cands g value c).length == 1)
    (fun g c => g.setCell 8 c value) (List.range 9) s

/-- The box corner loop order of lines 138–139. -/
def boxStarts : List (Nat × Nat) :=
  [(0, 0), (0, 3), (0, 6), (3, 0), (3, 3), (3, 6), (6, 0), (6, 3), (6, 6)]

/-- Lines 141–148: holders of `value` among the empty cells of the box at
`(rs, cs)`. -/
def boxHolders (cands : List ((Nat × Nat) × List Nat)) (g : Grid) (value rs cs : Nat) :
    List (Nat × Nat) :=
  ((List.range 3).flatMap fun i =>
      (List.range 3).filterMap fun j =>
        if g.get (rs + i) (cs + j) == 0 then some (rs + i, cs + j) else none).filter
    fun rc => memb value (lookupCand cands rc.1 rc.2)

/-- Lines 137–154: the box checks; the leaked ambient `(r, c)` is the box's
bottom-right cell `(rs + 2, cs + 2)`. -/
def hiddenBoxesStep (cands : List ((Nat × Nat) × List Nat)) (value : Nat)
    (s : Grid × Bool) : Grid × Bool :=
  placeFold (fun g bs => (boxHolders cands g value bs.1 bs.2).length == 1)
    (fun g bs => g.setCell (bs.1 + 2) (bs.2 + 2) value) boxStarts s

/-- The body of the digit loop of lines 111–154 for the digit `i + 1`: row
checks, then column checks, then box checks.  For digit 1 the leaked
row-target column is `c0` (the column of the last dict key); every later
digit sees `c = 8` left by the previous digit's box loops. -/
def hiddenValueStep (cands : List ((Nat × Nat) × List Nat)) (c0 : Nat) (i : Nat)
    (s : Grid × Bool) : Grid × Bool :=
  let value := i + 1
  hiddenBoxesStep cands value
    (hiddenColsStep cands value
      (hiddenRowsStep cands value (if value = 1 then c0 else 8) s))

/-- Lines 111–154: the hidden-single phase, digits 1–9 outermost. -/
def hiddenStep (cands : List ((Nat × Nat) × List Nat)) (c0 : Nat)
    (s : Grid × Bool) : Grid × Bool :=
  (List.range 9).foldl (fun s i => hiddenValueStep cands c0 i s) s

/-- One iteration of the `while True` loop of lines 62–163: recompute the
candidates dict, run the naked-single scan, and—only when it placed
nothing—run the hidden-single phase. -/
def onePass (g : Grid) : Grid × Bool :=
  let cands := candsList g
  let c0 := ((emptyCells g).getLastD (8, 8)).2
  let s1 := nakedStep cands g
  if s1.2 then s1 else hiddenStep cands c0 s1

/-- src/sudoku.py lines 56–165, fuelled: repeat passes until one makes no
placement, then return the grid and the accumulated `grid_changed` flag;
`none` when the fuel runs out first. -/
def simple_algorithm : Nat → Grid → Option (Grid × Bool)
  | 0, _ => none
  | fuel + 1, g =>
    let s := onePass g
    if s.2 then (simple_algorithm fuel s.1).map (fun t => (t.1, true))
    else some (s.1, false)

/-- The 27 units of the board: 9 rows, 9 columns, 9 boxes. -/
def unitsVals (g : Grid) : List (List Nat) :=
  ((List.range 9).map fun r => rowVals g r) ++ ((List.range 9).map fun c => colVals g c)
    ++ (boxStarts.map fun bs => boxVals g bs.1 bs.2)

/-- The board invariant: among nonzero entries, no unit contains a duplicate. -/
def validGrid (g : Grid) : Prop :=
  ∀ u ∈ unitsVals g, (u.filter fun v => !(v == 0)).Nodup

instance (g : Grid) : Decidable (validGrid g) :=
  inferInstanceAs (Decidable (∀ u ∈ unitsVals g, (u.filter fun v => !(v == 0)).Nodup))

/-- Every unit contains each digit 1–9 exactly once. -/
def completeValidGrid (g : Grid) : Prop :=
  ∀ u ∈ unitsVals g, ∀ d ∈ digits19, u.count d = 1

instance (g : Grid) : Decidable (completeValidGrid g) :=
  inferInstanceAs (Decidable (∀ u ∈ unitsVals g, ∀ d ∈ digits19, u.count d = 1))

/-- `s` completes `g`: every cell of `g` is empty or already agrees with `s`. -/
def extendsTo (g s : Grid) : Prop :=
  ∀ rc ∈ cellsRM, g.get rc.1 rc.2 = 0 ∨ g.get rc.1 rc.2 = s.get rc.1 rc.2

instance (g s : Grid) : Decidable (extendsTo g s) :=
  inferInstanceAs
    (Decidable (∀ rc ∈ cellsRM, g.get rc.1 rc.2 = 0 ∨ g.get rc.1 rc.2 = s.get rc.1 rc.2))

/-- Spec-side: the set of digits occurring among a unit's cells (zeros, which
mark empty cells, are not digits). -/
def specOccupied (l : List Nat) : Finset Nat := (l.filter fun v => !(v == 0)).toFinset

/-- Spec-side: the values of the 3×3 block whose start row is `(r / 3) * 3`
and start column `(c / 3) * 3`, as the spec words it. -/
def specBlockVals (g : Grid) (r c : Nat) : List Nat :=
  (List.range 3).flatMap fun i =>
    (List.range 3).map fun j => g.get (r / 3 * 3 + i) (c / 3 * 3 + j)

/-- Spec-side candidate set of a cell, following the spec's words: start from
the full digit set {1..9} and remove all digits present in its row, column,
and block. -/
def specCellCandidates (g : Grid) (r c : Nat) : Finset Nat :=
  ((Finset.Icc 1 9 \ specOccupied (rowVals g r)) \ specOccupied (colVals g c)) \
    specOccupied (specBlockVals g r c)

/-- Modelled from the spec: the Backtracking Solver of spec §4.1/§4.3 is not
under `src/` (only the propagation phase is).  `isValidPlacement(r,c,num)`
returns false iff `num` already occurs in row `r`, column `c`, or the 3×3
block containing `(r,c)`. -/
def isValidPlacement (g : Grid) (r c num : Nat) : Bool :=
  !memb num (rowVals g r) && !memb num (colVals g c) && !memb num (boxVals g r c)

/-- Modelled from the spec: `findNextEmptyCell()` scans row-major and returns
the first cell with value 0, or none if the grid is full. -/
def findNextEmptyCell (g : Grid) : Option (Nat × Nat) :=
  cellsRM.find? fun rc => g.get rc.1 rc.2 == 0

/-- Modelled from the spec: one recursive step of the Backtracking Solver
(§4.3): if no empty cell is left, succeed; otherwise try digits 1..9 in
ascending order at the first empty cell, recursing on each valid placement
and undoing on failure (pure recursion needs no explicit undo).  The fuel
only bounds recursion depth, which the spec bounds by the number of empty
cells (≤ 81). -/
def solve_backtracking : Nat → Grid → Option Grid
  | 0, g =>
    match findNextEmptyCell g with
    | none => some g
    | some _ => none
  | fuel + 1, g =>
    match findNextEmptyCell g with
    | none => some g
    | some rc =>
      digits19.findSome? fun num =>
        if isValidPlacement g rc.1 rc.2 num then
          solve_backtracking fuel (g.setCell rc.1 rc.2 num)
        else none

/-- Modelled from the spec: the combined pipeline (spec §2): the Candidate
Engine runs first, its output grid feeds the Backtracking Solver; on search
failure the board is restored to the propagation output (spec §7). -/
def solve_pipeline (fuel : Nat) (g : Grid) : Grid :=
  match simple_algorithm fuel g with
  | none => g
  | some (g1, _) =>
    match solve_backtracking 82 g1 with
    | some g2 => g2
    | none => g1


/-- A valid, solvable puzzle (holes punched into `solvedBase`'s solution class). -/
def exampleA : Grid :=
  [[0, 3, 4, 6, 0, 0, 9, 0, 0],
   [6, 0, 2, 0, 9, 0, 0, 0, 0],
   [0, 0, 8, 0, 0, 2, 0, 6, 7],
   [8, 0, 9, 0, 0, 0, 0, 2, 3],
   [0, 0, 6, 0, 0, 0, 0, 0, 1],
   [0, 1, 0, 0, 0, 4, 8, 0, 0],
   [0, 6, 0, 0, 0, 0, 2, 8, 4],
   [0, 8, 0, 0, 0, 0, 0, 0, 0],
   [0, 0, 0, 0, 8, 6, 1, 7, 0]]

/-- What `simple_algorithm` returns on `exampleA` (computed below). -/
def exampleA_out : Grid :=
  [[0, 3, 4, 6, 0, 0, 9, 0, 8],
   [6, 0, 2, 0, 9, 0, 0, 0, 0],
   [0, 0, 8, 0, 0, 2, 0, 6, 8],
   [8, 0, 9, 0, 0, 0, 0, 2, 3],
   [0, 0, 6, 0, 0, 0, 0, 0, 1],
   [0, 1, 0, 0, 0, 4, 8, 0, 0],
   [0, 6, 0, 0, 0, 0, 2, 8, 4],
   [0, 8, 0, 0, 0, 0, 0, 0, 0],
   [0, 0, 0, 0, 8, 6, 1, 7, 8]]

/-- A valid puzzle whose first pass reaches the hidden-single phase. -/
def exampleB : Grid :=
  [[5, 0, 0, 0, 7, 0, 9, 1, 0],
   [0, 7, 0, 0, 0, 0, 0, 4, 0],
   [1, 0, 8, 0, 0, 0, 0, 0, 0],
   [8, 0, 0, 7, 6, 0, 4, 2, 3],
   [0, 2, 0, 8, 0, 3, 7, 0, 1],
   [7, 0, 0, 0, 2, 0, 0, 5, 0],
   [0, 0, 1, 0, 0, 0, 0, 8, 0],
   [0, 8, 0, 0, 1, 9, 0, 3, 0],
   [3, 0, 0, 0, 0, 0, 0, 0, 0]]

/-- The grid after the first pass on `exampleB` (computed below). -/
def exampleB_out : Grid :=
  [[5, 0, 0, 0, 7, 0, 9, 1, 0],
   [0, 7, 0, 0, 0, 0, 0, 4, 0],
   [1, 0, 8, 0, 0, 0, 0, 0, 0],
   [8, 0, 0, 7, 6, 0, 4, 2, 3],
   [0, 2, 0, 8, 0, 3, 7, 0, 1],
   [7, 0, 0, 0, 2, 0, 0, 5, 0],
   [0, 0, 1, 0, 0, 0, 0, 8, 0],
   [0, 8, 0, 0, 1, 9, 0, 3, 0],
   [3, 0, 0, 0, 0, 0, 1, 0, 1]]

/-- First state of a 2-cycle of `onePass` (reachable; contains duplicates). -/
def cycleK0 : Grid :=
  [[0, 7, 0, 0, 0, 3, 0, 0, 8],
   [0, 0, 8, 0, 0, 1, 0, 7, 4],
   [0, 0, 4, 0, 0, 8, 9, 0, 8],
   [0, 0, 3, 0, 6, 7, 0, 8, 9],
   [0, 0, 0, 0, 0, 8, 6, 0, 7],
   [0, 8, 6, 0, 0, 2, 4, 0, 6],
   [7, 6, 1, 2, 3, 9, 5, 4, 8],
   [0, 0, 4, 1, 8, 5, 0, 0, 6],
   [8, 5, 6, 8, 4, 6, 7, 9, 6]]

/-- Second state of the 2-cycle. -/
def cycleK1 : Grid :=
  [[0, 7, 0, 0, 0, 3, 0, 0, 4],
   [0, 0, 8, 0, 0, 1, 0, 7, 4],
   [0, 0, 4, 0, 0, 4, 9, 0, 8],
   [0, 0, 3, 0, 6, 7, 0, 8, 9],
   [0, 0, 0, 0, 0, 8, 6, 0, 7],
   [0, 8, 6, 0, 0, 2, 4, 0, 6],
   [7, 6, 1, 2, 3, 9, 5, 4, 8],
   [0, 0, 4, 1, 8, 5, 0, 0, 6],
   [8, 5, 6, 7, 7, 6, 7, 9, 6]]

/-- A completely solved grid. -/
def solvedBase : Grid :=
  [[5, 3, 4, 6, 7, 8, 9, 1, 2],
   [6, 7, 2, 1, 9, 5, 3, 4, 8],
   [1, 9, 8, 3, 4, 2, 5, 6, 7],
   [8, 5, 9, 7, 6, 1, 4, 2, 3],
   [4, 2, 6, 8, 5, 3, 7, 9, 1],
   [7, 1, 3, 9, 2, 4, 8, 5, 6],
   [9, 6, 1, 5, 3, 7, 2, 8, 4],
   [2, 8, 7, 4, 1, 9, 6, 3, 5],
   [3, 4, 5, 2, 8, 6, 1, 7, 9]]

/-- The candidates dict computed by the pass on `exampleA`. -/
def candsA1 : List ((Nat × Nat) × List Nat) :=
  [((0, 0), [1, 5, 7]), ((0, 4), [1, 5, 7]), ((0, 5), [1, 5, 7, 8]), ((0, 7), [1, 5]), 
   ((0, 8), [2, 5, 8]), ((1, 1), [5, 7]), ((1, 3), [1, 3, 4, 5, 7, 8]), 
   ((1, 5), [1, 3, 5, 7, 8]), ((1, 6), [3, 4, 5]), ((1, 7), [1, 3, 4, 5]), ((1, 8), [5, 8]), 
   ((2, 0), [1, 5, 9]), ((2, 1), [5, 9]), ((2, 3), [1, 3, 4, 5]), ((2, 4), [1, 3, 4, 5]), 
   ((2, 6), [3, 4, 5]), ((3, 1), [4, 5, 7]), ((3, 3), [1, 5, 7]), ((3, 4), [1, 5, 6, 7]), 
   ((3, 5), [1, 5, 7]), ((3, 6), [4, 5, 6, 7]), ((4, 0), [2, 3, 4, 5, 7]), 
   ((4, 1), [2, 4, 5, 7]), ((4, 3), [2, 3, 5, 7, 8, 9]), ((4, 4), [2, 3, 5, 7]), 
   ((4, 5), [3, 5, 7, 8, 9]), ((4, 6), [4, 5, 7]), ((4, 7), [4, 5, 9]), ((5, 0), [2, 3, 5, 7]), 
   ((5, 2), [3, 5, 7]), ((5, 3), [2, 3, 5, 7, 9]), ((5, 4), [2, 3, 5, 6, 7]), ((5, 7), [5, 9]), 
   ((5, 8), [5, 6, 9]), ((6, 0), [1, 3, 5, 7, 9]), ((6, 2), [1, 3, 5, 7]), 
   ((6, 3), [1, 3, 5, 7, 9]), ((6, 4), [1, 3, 5, 7]), ((6, 5), [1, 3, 5, 7, 9]), 
   ((7, 0), [1, 2, 3, 4, 5, 7, 9]), ((7, 2), [1, 3, 5, 7]), ((7, 3), [1, 2, 3, 4, 5, 7, 9]), 
   ((7, 4), [1, 2, 3, 4, 5, 7]), ((7, 5), [1, 3, 5, 7, 9]), ((7, 6), [3, 5, 6]), 
   ((7, 7), [3, 5, 9]), ((7, 8), [5, 6, 9]), ((8, 0), [2, 3, 4, 5, 9]), ((8, 1), [2, 4, 5, 9]), 
   ((8, 2), [3, 5]), ((8, 3), [2, 3, 4, 5, 9]), ((8, 8), [5, 9])]

/-- The candidates dict computed by the pass on `exampleA_out`. -/
def candsA2 : List ((Nat × Nat) × List Nat) :=
  [((0, 0), [1, 5, 7]), ((0, 4), [1, 5, 7]), ((0, 5), [1, 5, 7]), ((0, 7), [1, 5]), 
   ((1, 1), [5, 7]), ((1, 3), [1, 3, 4, 5, 7, 8]), ((1, 5), [1, 3, 5, 7, 8]), 
   ((1, 6), [3, 4, 5, 7]), ((1, 7), [1, 3, 4, 5]), ((1, 8), [5, 7]), ((2, 0), [1, 5, 7, 9]), 
   ((2, 1), [5, 7, 9]), ((2, 3), [1, 3, 4, 5, 7]), ((2, 4), [1, 3, 4, 5, 7]), 
   ((2, 6), [3, 4, 5, 7]), ((3, 1), [4, 5, 7]), ((3, 3), [1, 5, 7]), ((3, 4), [1, 5, 6, 7]), 
   ((3, 5), [1, 5, 7]), ((3, 6), [4, 5, 6, 7]), ((4, 0), [2, 3, 4, 5, 7]), 
   ((4, 1), [2, 4, 5, 7]), ((4, 3), [2, 3, 5, 7, 8, 9]), ((4, 4), [2, 3, 5, 7]), 
   ((4, 5), [3, 5, 7, 8, 9]), ((4, 6), [4, 5, 7]), ((4, 7), [4, 5, 9]), ((5, 0), [2, 3, 5, 7]), 
   ((5, 2), [3, 5, 7]), ((5, 3), [2, 3, 5, 7, 9]), ((5, 4), [2, 3, 5, 6, 7]), ((5, 7), [5, 9]), 
   ((5, 8), [5, 6, 7, 9]), ((6, 0), [1, 3, 5, 7, 9]), ((6, 2), [1, 3, 5, 7]), 
   ((6, 3), [1, 3, 5, 7, 9]), ((6, 4), [1, 3, 5, 7]), ((6, 5), [1, 3, 5, 7, 9]), 
   ((7, 0), [1, 2, 3, 4, 5, 7, 9]), ((7, 2), [1, 3, 5, 7]), ((7, 3), [1, 2, 3, 4, 5, 7, 9]), 
   ((7, 4), [1, 2, 3, 4, 5, 7]), ((7, 5), [1, 3, 5, 7, 9]), ((7, 6), [3, 5, 6]), 
   ((7, 7), [3, 5, 9]), ((7, 8), [5, 6, 9]), ((8, 0), [2, 3, 4, 5, 9]), ((8, 1), [2, 4, 5, 9]), 
   ((8, 2), [3, 5]), ((8, 3), [2, 3, 4, 5, 9])]

/-- The candidates dict computed by the pass on `exampleB`. -/
def candsB1 : List ((Nat × Nat) × List Nat) :=
  [((0, 1), [3, 4, 6]), ((0, 2), [2, 3, 4, 6]), ((0, 3), [2, 3, 4, 6]), ((0, 5), [2, 4, 6, 8]), 
   ((0, 8), [2, 6, 8]), ((1, 0), [2, 6, 9]), ((1, 2), [2, 3, 6, 9]), 
   ((1, 3), [1, 2, 3, 5, 6, 9]), ((1, 4), [3, 5, 8, 9]), ((1, 5), [1, 2, 5, 6, 8]), 
   ((1, 6), [2, 3, 5, 6, 8]), ((1, 8), [2, 5, 6, 8]), ((2, 1), [3, 4, 6, 9]), 
   ((2, 3), [2, 3, 4, 5, 6, 9]), ((2, 4), [3, 4, 5, 9]), ((2, 5), [2, 4, 5, 6]), 
   ((2, 6), [2, 3, 5, 6]), ((2, 7), [6, 7]), ((2, 8), [2, 5, 6, 7]), ((3, 1), [1, 5, 9]), 
   ((3, 2), [5, 9]), ((3, 5), [1, 5]), ((4, 0), [4, 6, 9]), ((4, 2), [4, 5, 6, 9]), 
   ((4, 4), [4, 5, 9]), ((4, 7), [6, 9]), ((5, 1), [1, 3, 4, 6, 9]), ((5, 2), [3, 4, 6, 9]), 
   ((5, 3), [1, 4, 9]), ((5, 5), [1, 4]), ((5, 6), [6, 8]), ((5, 8), [6, 8, 9]), 
   ((6, 0), [2, 4, 6, 9]), ((6, 1), [4, 5, 6, 9]), ((6, 3), [2, 3, 4, 5, 6]), 
   ((6, 4), [3, 4, 5]), ((6, 5), [2, 4, 5, 6, 7]), ((6, 6), [2, 5, 6]), 
   ((6, 8), [2, 4, 5, 6, 7, 9]), ((7, 0), [2, 4, 6]), ((7, 2), [2, 4, 5, 6, 7]), 
   ((7, 3), [2, 4, 5, 6]), ((7, 6), [2, 5, 6]), ((7, 8), [2, 4, 5, 6, 7]), 
   ((8, 1), [4, 5, 6, 9]), ((8, 2), [2, 4, 5, 6, 7, 9]), ((8, 3), [2, 4, 5, 6]), 
   ((8, 4), [4, 5, 8]), ((8, 5), [2, 4, 5, 6, 7, 8]), ((8, 6), [1, 2, 5, 6]), 
   ((8, 7), [6, 7, 9]), ((8, 8), [2, 4, 5, 6, 7, 9])]

/-- The candidates dict computed by the pass on `cycleK0`. -/
def candsK0 : List ((Nat × Nat) × List Nat) :=
  [((0, 0), [1, 2, 5, 6, 9]), ((0, 2), [2, 5, 9]), ((0, 3), [4, 5, 6, 9]), ((0, 4), [2, 5, 9]), 
   ((0, 6), [1, 2]), ((0, 7), [1, 2, 5, 6]), ((1, 0), [2, 3, 5, 6, 9]), ((1, 1), [2, 3, 9]), 
   ((1, 3), [5, 6, 9]), ((1, 4), [2, 5, 9]), ((1, 6), [2, 3]), ((2, 0), [1, 2, 3, 5, 6]), 
   ((2, 1), [1, 2, 3]), ((2, 3), [5, 6, 7]), ((2, 4), [2, 5, 7]), ((2, 7), [1, 2, 3, 5, 6]), 
   ((3, 0), [1, 2, 4, 5]), ((3, 1), [1, 2, 4]), ((3, 3), [4, 5]), ((3, 6), [1, 2]), 
   ((4, 0), [1, 2, 4, 5, 9]), ((4, 1), [1, 2, 4, 9]), ((4, 2), [2, 5, 9]), 
   ((4, 3), [3, 4, 5, 9]), ((4, 4), [1, 5, 9]), ((4, 7), [1, 2, 3, 5]), ((5, 0), [1, 5, 9]), 
   ((5, 3), [3, 5, 9]), ((5, 4), [1, 5, 9]), ((5, 7), [1, 3, 5]), ((7, 0), [2, 3, 9]), 
   ((7, 1), [2, 3, 9]), ((7, 6), [2, 3]), ((7, 7), [2, 3])]

/-- The candidates dict computed by the pass on `cycleK1`. -/
def candsK1 : List ((Nat × Nat) × List Nat) :=
  [((0, 0), [1, 2, 5, 6, 9]), ((0, 2), [2, 5, 9]), ((0, 3), [5, 6, 8, 9]), ((0, 4), [2, 5, 9]), 
   ((0, 6), [1, 2]), ((0, 7), [1, 2, 5, 6]), ((1, 0), [2, 3, 5, 6, 9]), ((1, 1), [2, 3, 9]), 
   ((1, 3), [5, 6, 9]), ((1, 4), [2, 5, 9]), ((1, 6), [2, 3]), ((2, 0), [1, 2, 3, 5, 6]), 
   ((2, 1), [1, 2, 3]), ((2, 3), [5, 6]), ((2, 4), [2, 5]), ((2, 7), [1, 2, 3, 5, 6]), 
   ((3, 0), [1, 2, 4, 5]), ((3, 1), [1, 2, 4]), ((3, 3), [4, 5]), ((3, 6), [1, 2]), 
   ((4, 0), [1, 2, 4, 5, 9]), ((4, 1), [1, 2, 4, 9]), ((4, 2), [2, 5, 9]), 
   ((4, 3), [3, 4, 5, 9]), ((4, 4), [1, 4, 5, 9]), ((4, 7), [1, 2, 3, 5]), ((5, 0), [1, 5, 9]), 
   ((5, 3), [3, 5, 9]), ((5, 4), [1, 5, 9]), ((5, 7), [1, 3, 5]), ((7, 0), [2, 3, 9]), 
   ((7, 1), [2, 3, 9]), ((7, 6), [2, 3]), ((7, 7), [2, 3])]

/-- The candidates dict computed by the pass on `solvedBase`. -/
def candsS : List ((Nat × Nat) × List Nat) :=
  []

/-- `solvedBase` with a single hole at (0, 0); that cell's candidate set is
the singleton [5]. -/
def nakedWitnessGrid : Grid :=
  [[0, 3, 4, 6, 7, 8, 9, 1, 2],
   [6, 7, 2, 1, 9, 5, 3, 4, 8],
   [1, 9, 8, 3, 4, 2, 5, 6, 7],
   [8, 5, 9, 7, 6, 1, 4, 2, 3],
   [4, 2, 6, 8, 5, 3, 7, 9, 1],
   [7, 1, 3, 9, 2, 4, 8, 5, 6],
   [9, 6, 1, 5, 3, 7, 2, 8, 4],
   [2, 8, 7, 4, 1, 9, 6, 3, 5],
   [3, 4, 5, 2, 8, 6, 1, 7, 9]]

set_option maxRecDepth 40000

theorem range9_eq : List.range 9 = [0, 1, 2, 3, 4, 5, 6, 7, 8] := rfl

/-- The digit loop of the hidden-single phase, written out. -/
theorem hiddenStep_expand (cands : List ((Nat × Nat) × List Nat)) (c0 : Nat) (s : Grid × Bool) :
    hiddenStep cands c0 s =
      hiddenValueStep cands c0 8 (hiddenValueStep cands c0 7 (hiddenValueStep cands c0 6
        (hiddenValueStep cands c0 5 (hiddenValueStep cands c0 4 (hiddenValueStep cands c0 3
          (hiddenValueStep cands c0 2 (hiddenValueStep cands c0 1
            (hiddenValueStep cands c0 0 s)))))))) := by
  simp only [hiddenStep, range9_eq, List.foldl_cons, List.foldl_nil]

/-- One unfolding of the fuelled while-loop. -/
theorem simple_algorithm_succ (fuel : Nat) (g : Grid) :
    simple_algorithm (fuel + 1) g =
      (let s := onePass g
       if s.2 then (simple_algorithm fuel s.1).map (fun t => (t.1, true))
       else some (s.1, false)) := rfl
theorem setN_length {α : Type} (l : List α) (i : Nat) (v : α) :
    (setN l i v).length = l.length := by
  induction l generalizing i with
  | nil => rfl
  | cons x xs ih =>
    cases i with
    | zero => rfl
    | succ j => simp [setN, ih]

theorem nth_setN_self {α : Type} (l : List α) (i : Nat) (v d : α) (h : i < l.length) :
    nth (setN l i v) i d = v := by
  induction l generalizing i with
  | nil => simp at h
  | cons x xs ih =>
    cases i with
    | zero => rfl
    | succ j => exact ih j (by simpa using h)

theorem nth_setN_ne {α : Type} (l : List α) (i j : Nat) (v d : α) (h : i ≠ j) :
    nth (setN l i v) j d = nth l j d := by
  induction l generalizing i j with
  | nil => rfl
  | cons x xs ih =>
    cases i with
    | zero =>
      cases j with
      | zero => exact absurd rfl h
      | succ k => rfl
    | succ i2 =>
      cases j with
      | zero => rfl
      | succ k => exact ih i2 k (fun e => h (by rw [e]))

theorem setN_of_le {α : Type} (l : List α) (i : Nat) (v : α) (h : l.length ≤ i) :
    setN l i v = l := by
  induction l generalizing i with
  | nil => rfl
  | cons x xs ih =>
    cases i with
    | zero => simp at h
    | succ j => simp [setN, ih j (by simpa using h)]

theorem nth_mem {α : Type} (l : List α) (i : Nat) (d : α) (h : i < l.length) :
    nth l i d ∈ l := by
  induction l generalizing i with
  | nil => simp at h
  | cons x xs ih =>
    cases i with
    | zero => exact List.mem_cons_self x xs
    | succ j => exact List.mem_cons_of_mem x (ih j (by simpa using h))

theorem mem_setN {α : Type} (l : List α) (i : Nat) (v x : α) (h : x ∈ setN l i v) :
    x ∈ l ∨ x = v := by
  induction l generalizing i with
  | nil => simp [setN] at h
  | cons y ys ih =>
    cases i with
    | zero =>
      rcases List.mem_cons.1 h with h1 | h1
      · right; exact h1
      · left; exact List.mem_cons_of_mem y h1
    | succ j =>
      rcases List.mem_cons.1 h with h1 | h1
      · left; exact h1 ▸ List.mem_cons_self y ys
      · rcases ih j h1 with h2 | h2
        · left; exact List.mem_cons_of_mem y h2
        · right; exact h2

theorem WF_setCell {g : Grid} (r c v : Nat) (h : WF g) : WF (g.setCell r c v) := by
  by_cases hrl : r < g.length
  · refine ⟨by rw [Grid.setCell, setN_length, h.1], ?_⟩
    intro row hrow
    rcases mem_setN _ _ _ _ hrow with h1 | h1
    · exact h.2 row h1
    · rw [h1, setN_length]
      exact h.2 _ (nth_mem _ _ _ hrl)
  · rw [Grid.setCell, setN_of_le _ _ _ (Nat.le_of_not_lt hrl)]
    exact h

theorem get_setCell_self (g : Grid) (r c v : Nat) (h : WF g) (hr : r < 9) (hc : c < 9) :
    (g.setCell r c v).get r c = v := by
  have hrl : r < g.length := by rw [h.1]; exact hr
  have hrow : (nth g r []).length = 9 := h.2 _ (nth_mem _ _ _ hrl)
  rw [Grid.get, Grid.setCell, nth_setN_self _ _ _ _ hrl, nth_setN_self]
  rw [hrow]; exact hc

theorem get_setCell_ne (g : Grid) (r c r2 c2 v : Nat) (h : (r2, c2) ≠ (r, c)) :
    (g.setCell r c v).get r2 c2 = g.get r2 c2 := by
  by_cases hrr : r = r2
  · subst hrr
    have hcc : c ≠ c2 := by
      intro e
      exact h (by rw [e])
    by_cases hrl : r < g.length
    · rw [Grid.get, Grid.get, Grid.setCell, nth_setN_self _ _ _ _ hrl, nth_setN_ne _ _ _ _ _ hcc]
    · rw [Grid.setCell, setN_of_le _ _ _ (Nat.le_of_not_lt hrl)]
  · rw [Grid.get, Grid.get, Grid.setCell, nth_setN_ne _ _ _ _ _ hrr]

theorem placeFold_nil {α : Type} (cond : Grid → α → Bool) (wr : Grid → α → Grid)
    (s : Grid × Bool) : placeFold cond wr [] s = s := rfl

theorem placeFold_cons {α : Type} (cond : Grid → α → Bool) (wr : Grid → α → Grid)
    (x : α) (xs : List α) (s : Grid × Bool) :
    placeFold cond wr (x :: xs) s =
      placeFold cond wr xs (if cond s.1 x then (wr s.1 x, true) else s) := rfl

theorem placeFold_flag {α : Type} (cond : Grid → α → Bool) (wr : Grid → α → Grid)
    (L : List α) (s : Grid × Bool) (h : s.2 = true) :
    (placeFold cond wr L s).2 = true := by
  induction L generalizing s with
  | nil => exact h
  | cons x xs ih =>
    rw [placeFold_cons]
    by_cases hc : cond s.1 x = true
    · rw [if_pos hc]; exact ih _ rfl
    · rw [if_neg hc]; exact ih _ h

theorem placeFold_flag_false {α : Type} (cond : Grid → α → Bool) (wr : Grid → α → Grid)
    (L : List α) (s : Grid × Bool) (h : (placeFold cond wr L s).2 = false) :
    placeFold cond wr L s = s ∧ s.2 = false := by
  induction L generalizing s with
  | nil => exact ⟨rfl, h⟩
  | cons x xs ih =>
    rw [placeFold_cons] at h ⊢
    by_cases hc : cond s.1 x = true
    · rw [if_pos hc] at h
      have := placeFold_flag cond wr xs (wr s.1 x, true) rfl
      rw [this] at h
      exact absurd h (by simp)
    · rw [if_neg hc] at h ⊢
      exact ih _ h

theorem placeFold_flag_of_mem {α : Type} (cond : Grid → α → Bool) (wr : Grid → α → Grid)
    (L : List α) (s : Grid × Bool) (x : α) (hx : x ∈ L)
    (hc : ∀ g : Grid, cond g x = true) : (placeFold cond wr L s).2 = true := by
  induction L generalizing s with
  | nil => simp at hx
  | cons y ys ih =>
    rw [placeFold_cons]
    rcases List.mem_cons.1 hx with h1 | h1
    · subst h1
      rw [if_pos (hc s.1)]
      exact placeFold_flag _ _ _ _ rfl
    · exact ih _ h1

theorem hiddenRowsStep_flag_false (cands : List ((Nat × Nat) × List Nat)) (value tcol : Nat)
    (s : Grid × Bool) (h : (hiddenRowsStep cands value tcol s).2 = false) :
    hiddenRowsStep cands value tcol s = s ∧ s.2 = false := by
  rw [hiddenRowsStep] at h ⊢
  exact placeFold_flag_false _ _ _ _ h

theorem hiddenColsStep_flag_false (cands : List ((Nat × Nat) × List Nat)) (value : Nat)
    (s : Grid × Bool) (h : (hiddenColsStep cands value s).2 = false) :
    hiddenColsStep cands value s = s ∧ s.2 = false := by
  rw [hiddenColsStep] at h ⊢
  exact placeFold_flag_false _ _ _ _ h

theorem hiddenBoxesStep_flag_false (cands : List ((Nat × Nat) × List Nat)) (value : Nat)
    (s : Grid × Bool) (h : (hiddenBoxesStep cands value s).2 = false) :
    hiddenBoxesStep cands value s = s ∧ s.2 = false := by
  rw [hiddenBoxesStep] at h ⊢
  exact placeFold_flag_false _ _ _ _ h

theorem hiddenValueStep_flag_false (cands : List ((Nat × Nat) × List Nat)) (c0 i : Nat)
    (s : Grid × Bool) (h : (hiddenValueStep cands c0 i s).2 = false) :
    hiddenValueStep cands c0 i s = s ∧ s.2 = false := by
  rw [hiddenValueStep] at h ⊢
  obtain ⟨e1, f1⟩ := hiddenBoxesStep_flag_false _ _ _ h
  rw [e1] at h ⊢
  obtain ⟨e2, f2⟩ := hiddenColsStep_flag_false _ _ _ f1
  rw [e2] at h ⊢
  obtain ⟨e3, f3⟩ := hiddenRowsStep_flag_false _ _ _ _ f2
  exact ⟨e3, f3⟩

theorem hiddenStep_flag_false (cands : List ((Nat × Nat) × List Nat)) (c0 : Nat)
    (s : Grid × Bool) (h : (hiddenStep cands c0 s).2 = false) :
    hiddenStep cands c0 s = s ∧ s.2 = false := by
  rw [hiddenStep_expand] at h ⊢
  obtain ⟨e8, f8⟩ := hiddenValueStep_flag_false _ _ _ _ h
  rw [e8] at h ⊢
  obtain ⟨e7, f7⟩ := hiddenValueStep_flag_false _ _ _ _ f8
  rw [e7] at h ⊢
  obtain ⟨e6, f6⟩ := hiddenValueStep_flag_false _ _ _ _ f7
  rw [e6] at h ⊢
  obtain ⟨e5, f5⟩ := hiddenValueStep_flag_false _ _ _ _ f6
  rw [e5] at h ⊢
  obtain ⟨e4, f4⟩ := hiddenValueStep_flag_false _ _ _ _ f5
  rw [e4] at h ⊢
  obtain ⟨e3, f3⟩ := hiddenValueStep_flag_false _ _ _ _ f4
  rw [e3] at h ⊢
  obtain ⟨e2, f2⟩ := hiddenValueStep_flag_false _ _ _ _ f3
  rw [e2] at h ⊢
  obtain ⟨e1, f1⟩ := hiddenValueStep_flag_false _ _ _ _ f2
  rw [e1] at h ⊢
  exact hiddenValueStep_flag_false _ _ _ _ f1

/-- A pass that sets no flag leaves the grid unchanged: placements are the
only mutations. -/
theorem onePass_flag_false (g : Grid) (h : (onePass g).2 = false) : (onePass g).1 = g := by
  rw [onePass] at h ⊢
  by_cases hs : (nakedStep (candsList g) g).2 = true
  · rw [if_pos hs] at h
    exact absurd h (by simp [hs])
  · have hs2 : (nakedStep (candsList g) g).2 = false := by
      simpa using hs
    rw [if_neg hs] at h ⊢
    obtain ⟨eh, _⟩ := hiddenStep_flag_false _ _ _ h
    rw [eh]
    have := placeFold_flag_false nakedCond nakedWr (candsList g) (g, false)
      (by rw [← nakedStep]; exact hs2)
    rw [nakedStep, this.1]

/-- The grid a terminating run returns is a fixpoint of the pass: the final
pass placed nothing. -/
theorem sa_terminal (fuel : Nat) (g g2 : Grid) (b : Bool)
    (h : simple_algorithm fuel g = some (g2, b)) : (onePass g2).2 = false := by
  induction fuel generalizing g b with
  | zero => exact absurd h (by simp [simple_algorithm])
  | succ n ih =>
    rw [simple_algorithm_succ] at h
    by_cases hs : (onePass g).2 = true
    · rw [if_pos hs] at h
      cases hsa : simple_algorithm n (onePass g).1 with
      | none => rw [hsa] at h; exact absurd h (by simp)
      | some t =>
        rw [hsa] at h
        simp only [Option.map_some', Option.some.injEq] at h
        have ht1 : t.1 = g2 := congrArg Prod.fst h
        exact ih (onePass g).1 t.2 (by rw [← ht1]; exact hsa)
    · have hs2 : (onePass g).2 = false := by simpa using hs
      rw [if_neg hs] at h
      simp only [Option.some.injEq] at h
      have hg : (onePass g).1 = g2 := congrArg Prod.fst h
      rw [← hg, onePass_flag_false g hs2]
      exact hs2

/-- A run that returns the flag `false` is a single pass that placed
nothing, so the grid comes back unchanged. -/
theorem sa_flag_false (fuel : Nat) (g g2 : Grid)
    (h : simple_algorithm fuel g = some (g2, false)) :
    g2 = g ∧ (onePass g).2 = false := by
  cases fuel with
  | zero => exact absurd h (by simp [simple_algorithm])
  | succ n =>
    rw [simple_algorithm_succ] at h
    by_cases hs : (onePass g).2 = true
    · rw [if_pos hs] at h
      cases hsa : simple_algorithm n (onePass g).1 with
      | none => rw [hsa] at h; exact absurd h (by simp)
      | some t =>
        rw [hsa] at h
        simp only [Option.map_some', Option.some.injEq] at h
        exact absurd (congrArg Prod.snd h) (by simp)
    · have hs2 : (onePass g).2 = false := by simpa using hs
      rw [if_neg hs] at h
      simp only [Option.some.injEq] at h
      have hg : (onePass g).1 = g2 := congrArg Prod.fst h
      exact ⟨by rw [← hg, onePass_flag_false g hs2], hs2⟩

/-- A run that returns the flag `true` started with a pass that placed. -/
theorem sa_flag_true (fuel : Nat) (g g2 : Grid)
    (h : simple_algorithm fuel g = some (g2, true)) : (onePass g).2 = true := by
  cases fuel with
  | zero => exact absurd h (by simp [simple_algorithm])
  | succ n =>
    rw [simple_algorithm_succ] at h
    by_cases hs : (onePass g).2 = true
    · exact hs
    · have hs2 : (onePass g).2 = false := by simpa using hs
      rw [if_neg hs] at h
      simp only [Option.some.injEq] at h
      exact absurd (congrArg Prod.snd h) (by simp)

/-- Membership in the row-major cell enumeration. -/
theorem mem_cellsRM (r c : Nat) (hr : r < 9) (hc : c < 9) : (r, c) ∈ cellsRM := by
  rw [cellsRM]
  refine List.mem_flatMap.2 ⟨r, List.mem_range.2 hr, ?_⟩
  exact List.mem_map.2 ⟨c, List.mem_range.2 hc, rfl⟩

/-- What the naked-single scan does at one tracked cell: entries keyed at
`(r, c)` all carry the singleton `[v]`, so once such an entry is processed
the cell holds `v`, and entries for other cells never touch it. -/
theorem naked_fold_get (r c v : Nat) (hr : r < 9) (hc : c < 9) :
    ∀ (L : List ((Nat × Nat) × List Nat)) (g : Grid) (p : Bool), WF g →
    (∀ e ∈ L, e.1 = (r, c) → e.2 = [v]) →
    ((∃ e ∈ L, e.1 = (r, c)) → (placeFold nakedCond nakedWr L (g, p)).1.get r c = v) ∧
    ((∀ e ∈ L, e.1 ≠ (r, c)) → (placeFold nakedCond nakedWr L (g, p)).1.get r c = g.get r c) := by
  intro L
  induction L with
  | nil =>
    intro g p _ _
    exact ⟨fun h => by simp at h, fun _ => by rw [placeFold_nil]⟩
  | cons e L ih =>
    intro g p hWF hkeys
    by_cases hk : e.1 = (r, c)
    · have he2 : e.2 = [v] := hkeys e (List.mem_cons_self e L) hk
      have hcond : nakedCond g e = true := by simp [nakedCond, he2]
      have hwr : nakedWr g e = g.setCell r c v := by
        rw [nakedWr, hk, he2]
        rfl
      rw [placeFold_cons, if_pos hcond, hwr]
      have hWF2 : WF (g.setCell r c v) := WF_setCell r c v hWF
      have hget : (g.setCell r c v).get r c = v := get_setCell_self g r c v hWF hr hc
      obtain ⟨ih1, ih2⟩ := ih (g.setCell r c v) true hWF2
        (fun e2 he2 hk2 => hkeys e2 (List.mem_cons_of_mem e he2) hk2)
      constructor
      · intro _
        by_cases hmem : ∃ e2 ∈ L, e2.1 = (r, c)
        · exact ih1 hmem
        · rw [ih2 (fun e2 he2 => fun hk2 => hmem ⟨e2, he2, hk2⟩)]
          exact hget
      · intro hall
        exact absurd hk (hall e (List.mem_cons_self e L))
    · have hne : (r, c) ≠ (e.1.1, e.1.2) := by
        intro h2
        exact hk (by rw [h2])
      have hpres : ∀ g2 : Grid,
          (if nakedCond g2 e then (nakedWr g2 e, true) else (g2, p)).1.get r c = g2.get r c := by
        intro g2
        by_cases hcond : nakedCond g2 e = true
        · rw [if_pos hcond]
          exact get_setCell_ne g2 e.1.1 e.1.2 r c (e.2.headD 0) hne
        · rw [if_neg hcond]
      constructor
      · intro hex
        have hex2 : ∃ e2 ∈ L, e2.1 = (r, c) := by
          rcases hex with ⟨e2, he2, hk2⟩
          rcases List.mem_cons.1 he2 with h1 | h1
          · exact absurd (h1 ▸ hk2) hk
          · exact ⟨e2, h1, hk2⟩
        rw [placeFold_cons]
        by_cases hcond : nakedCond g e = true
        · rw [if_pos hcond]
          obtain ⟨ih1, _⟩ := ih (nakedWr g e) true
            (WF_setCell e.1.1 e.1.2 (e.2.headD 0) hWF)
            (fun e2 he2 hk2 => hkeys e2 (List.mem_cons_of_mem e he2) hk2)
          exact ih1 hex2
        · rw [if_neg hcond]
          obtain ⟨ih1, _⟩ := ih g p hWF
            (fun e2 he2 hk2 => hkeys e2 (List.mem_cons_of_mem e he2) hk2)
          exact ih1 hex2
      · intro hall
        have hall2 : ∀ e2 ∈ L, e2.1 ≠ (r, c) :=
          fun e2 he2 => hall e2 (List.mem_cons_of_mem e he2)
        rw [placeFold_cons]
        by_cases hcond : nakedCond g e = true
        · rw [if_pos hcond]
          obtain ⟨_, ih2⟩ := ih (nakedWr g e) true
            (WF_setCell e.1.1 e.1.2 (e.2.headD 0) hWF)
            (fun e2 he2 hk2 => hkeys e2 (List.mem_cons_of_mem e he2) hk2)
          rw [ih2 hall2, nakedWr]
          exact get_setCell_ne g e.1.1 e.1.2 r c (e.2.headD 0) hne
        · rw [if_neg hcond]
          obtain ⟨_, ih2⟩ := ih g p hWF
            (fun e2 he2 hk2 => hkeys e2 (List.mem_cons_of_mem e he2) hk2)
          exact ih2 hall2

/-- Boolean membership agrees with list membership. -/
theorem memb_iff (v : Nat) (l : List Nat) : memb v l = true ↔ v ∈ l := by
  induction l with
  | nil => simp [memb]
  | cons x xs ih =>
    rw [memb]
    by_cases hx : x = v
    · simp [hx]
    · simp [hx, ih, List.mem_cons, Ne.symm hx]

/-- The digit list 1..9. -/
theorem mem_digits19 (v : Nat) : v ∈ digits19 ↔ 1 ≤ v ∧ v ≤ 9 := by
  rw [digits19]
  simp only [List.mem_map, List.mem_range]
  constructor
  · rintro ⟨i, hi, rfl⟩
    omega
  · rintro ⟨h1, h9⟩
    exact ⟨v - 1, by omega, by omega⟩

theorem memb_eq_false (v : Nat) (l : List Nat) : memb v l = false ↔ v ∉ l := by
  constructor
  · intro h hv
    rw [(memb_iff v l).2 hv] at h
    exact absurd h (by simp)
  · intro h
    cases hm : memb v l
    · rfl
    · exact absurd ((memb_iff v l).1 hm) h

/-- C6: in each pass, the candidate set computed for a cell `(r, c)` equals
{1..9} minus the digits occurring in row `r`, minus the digits in column
`c`, minus the digits in the 3×3 block starting at row `(r / 3) * 3` and
column `(c / 3) * 3` (spec-side definition `specCellCandidates`). -/
theorem C6_candidates_match_spec (g : Grid) (r c : Nat) :
    (candidatesOf g r c).toFinset = specCellCandidates g r c := by
  ext v
  have hbox : specOccupied (specBlockVals g r c) = specOccupied (boxVals g r c) := rfl
  rw [List.mem_toFinset, candidatesOf, List.mem_filter, specCellCandidates, hbox]
  simp only [Finset.mem_sdiff, Finset.mem_Icc, specOccupied, List.mem_toFinset, List.mem_filter,
    Bool.not_eq_true', Bool.and_eq_true, mem_digits19, memb_eq_false, beq_eq_false_iff_ne,
    ne_eq, Bool.not_eq_eq_eq_not, Bool.not_true, beq_iff_eq]
  by_cases hv : v = 0
  · subst hv
    simp
  · tauto

/-- C7: `simple_algorithm` is idempotent: when a run terminates and returns
grid `g2`, a second run on `g2` makes no further placements and returns
`g2` unchanged with the changed flag `false`. -/
theorem C7_idempotent (fuel fuel2 : Nat) (g g2 : Grid) (b : Bool)
    (h : simple_algorithm fuel g = some (g2, b)) :
    simple_algorithm (fuel2 + 1) g2 = some (g2, false) := by
  have ht := sa_terminal fuel g g2 b h
  have hg := onePass_flag_false g2 ht
  rw [simple_algorithm_succ]
  simp only [ht, Bool.false_eq_true, if_false, hg]

/-- C8: in each pass, every empty cell whose computed candidate set is the
singleton `[v]` ends the pass holding `v`, and when the naked-single scan
placed anything the pass is exactly that scan: the hidden-single step is
not executed (`onePass` returns the naked-scan state unchanged). -/
theorem C8_naked_single_assignment (g : Grid) (r c v : Nat) (hWF : WF g) (hr : r < 9)
    (hc : c < 9) (hempty : g.get r c = 0) (hcand : candidatesOf g r c = [v]) :
    (onePass g).1.get r c = v ∧ onePass g = nakedStep (candsList g) g := by
  have hmem : ((r, c), candidatesOf g r c) ∈ candsList g := by
    rw [candsList]
    refine List.mem_map.2 ⟨(r, c), ?_, rfl⟩
    rw [emptyCells]
    exact List.mem_filter.2 ⟨mem_cellsRM r c hr hc, by simp [hempty]⟩
  have hmem2 : ((r, c), [v]) ∈ candsList g := by rw [← hcand]; exact hmem
  have hkeys : ∀ e ∈ candsList g, e.1 = (r, c) → e.2 = [v] := by
    intro e he hk
    rw [candsList] at he
    obtain ⟨rc, hrc, he2⟩ := List.mem_map.1 he
    rw [← he2] at hk ⊢
    simp only at hk ⊢
    rw [hk] at hrc ⊢
    exact hcand
  have hflag : (nakedStep (candsList g) g).2 = true := by
    rw [nakedStep]
    exact placeFold_flag_of_mem _ _ _ _ _ hmem2 (fun g2 => by simp [nakedCond])
  have h2 : onePass g = nakedStep (candsList g) g := by
    rw [onePass, if_pos hflag]
  refine ⟨?hget, h2⟩
  rw [h2, nakedStep]
  exact (naked_fold_get r c v hr hc (candsList g) g false hWF hkeys).1 ⟨((r, c), [v]), hmem2, rfl⟩

/-- C9: the boolean flag returned by a terminating run of `simple_algorithm`
is `true` exactly when the returned grid differs from the input grid. -/
theorem C9_changed_flag_iff (fuel : Nat) (g g2 : Grid) (b : Bool)
    (h : simple_algorithm fuel g = some (g2, b)) : b = true ↔ g2 ≠ g := by
  constructor
  · intro hb e
    rw [hb] at h
    have h1 := sa_flag_true fuel g g2 h
    have h2 := sa_terminal fuel g g2 true h
    rw [e] at h2
    rw [h1] at h2
    exact absurd h2 (by simp)
  · intro hne
    cases b with
    | true => rfl
    | false => exact absurd (sa_flag_false fuel g g2 h).1 hne

/-- C10: `simple_algorithm` is a pure function of its input grid: equal
inputs give equal output grids and equal changed flags. -/
theorem C10_deterministic (fuel : Nat) (g1 g2 : Grid) (h : g1 = g2) :
    simple_algorithm fuel g1 = simple_algorithm fuel g2 := by rw [h]

theorem candsA1_eq : candsList exampleA = candsA1 := by decide

theorem c0A1_eq : ((emptyCells exampleA).getLastD (8, 8)).2 = 8 := by decide

theorem nakedA1_eq : nakedStep candsA1 exampleA = (exampleA, false) := by decide

theorem hvA1_0 :
    hiddenValueStep candsA1 8 0 (exampleA, false) =
    (exampleA, false) := by decide

theorem hvA1_1 :
    hiddenValueStep candsA1 8 1 (exampleA, false) =
    ([[0, 3, 4, 6, 0, 0, 9, 0, 2],
     [6, 0, 2, 0, 9, 0, 0, 0, 0],
     [0, 0, 8, 0, 0, 2, 0, 6, 7],
     [8, 0, 9, 0, 0, 0, 0, 2, 3],
     [0, 0, 6, 0, 0, 0, 0, 0, 1],
     [0, 1, 0, 0, 0, 4, 8, 0, 0],
     [0, 6, 0, 0, 0, 0, 2, 8, 4],
     [0, 8, 0, 0, 0, 0, 0, 0, 0],
     [0, 0, 0, 0, 8, 6, 1, 7, 0]],
    true) := by decide

theorem hvA1_2 :
    hiddenValueStep candsA1 8 2 ([[0, 3, 4, 6, 0, 0, 9, 0, 2],
     [6, 0, 2, 0, 9, 0, 0, 0, 0],
     [0, 0, 8, 0, 0, 2, 0, 6, 7],
     [8, 0, 9, 0, 0, 0, 0, 2, 3],
     [0, 0, 6, 0, 0, 0, 0, 0, 1],
     [0, 1, 0, 0, 0, 4, 8, 0, 0],
     [0, 6, 0, 0, 0, 0, 2, 8, 4],
     [0, 8, 0, 0, 0, 0, 0, 0, 0],
     [0, 0, 0, 0, 8, 6, 1, 7, 0]],
    true) =
    ([[0, 3, 4, 6, 0, 0, 9, 0, 2],
     [6, 0, 2, 0, 9, 0, 0, 0, 0],
     [0, 0, 8, 0, 0, 2, 0, 6, 7],
     [8, 0, 9, 0, 0, 0, 0, 2, 3],
     [0, 0, 6, 0, 0, 0, 0, 0, 1],
     [0, 1, 0, 0, 0, 4, 8, 0, 0],
     [0, 6, 0, 0, 0, 0, 2, 8, 4],
     [0, 8, 0, 0, 0, 0, 0, 0, 0],
     [0, 0, 0, 0, 8, 6, 1, 7, 0]],
    true) := by decide

theorem hvA1_3 :
    hiddenValueStep candsA1 8 3 ([[0, 3, 4, 6, 0, 0, 9, 0, 2],
     [6, 0, 2, 0, 9, 0, 0, 0, 0],
     [0, 0, 8, 0, 0, 2, 0, 6, 7],
     [8, 0, 9, 0, 0, 0, 0, 2, 3],
     [0, 0, 6, 0, 0, 0, 0, 0, 1],
     [0, 1, 0, 0, 0, 4, 8, 0, 0],
     [0, 6, 0, 0, 0, 0, 2, 8, 4],
     [0, 8, 0, 0, 0, 0, 0, 0, 0],
     [0, 0, 0, 0, 8, 6, 1, 7, 0]],
    true) =
    ([[0, 3, 4, 6, 0, 0, 9, 0, 2],
     [6, 0, 2, 0, 9, 0, 0, 0, 0],
     [0, 0, 8, 0, 0, 2, 0, 6, 7],
     [8, 0, 9, 0, 0, 0, 0, 2, 3],
     [0, 0, 6, 0, 0, 0, 0, 0, 1],
     [0, 1, 0, 0, 0, 4, 8, 0, 0],
     [0, 6, 0, 0, 0, 0, 2, 8, 4],
     [0, 8, 0, 0, 0, 0, 0, 0, 0],
     [0, 0, 0, 0, 8, 6, 1, 7, 0]],
    true) := by decide

theorem hvA1_4 :
    hiddenValueStep candsA1 8 4 ([[0, 3, 4, 6, 0, 0, 9, 0, 2],
     [6, 0, 2, 0, 9, 0, 0, 0, 0],
     [0, 0, 8, 0, 0, 2, 0, 6, 7],
     [8, 0, 9, 0, 0, 0, 0, 2, 3],
     [0, 0, 6, 0, 0, 0, 0, 0, 1],
     [0, 1, 0, 0, 0, 4, 8, 0, 0],
     [0, 6, 0, 0, 0, 0, 2, 8, 4],
     [0, 8, 0, 0, 0, 0, 0, 0, 0],
     [0, 0, 0, 0, 8, 6, 1, 7, 0]],
    true) =
    ([[0, 3, 4, 6, 0, 0, 9, 0, 2],
     [6, 0, 2, 0, 9, 0, 0, 0, 0],
     [0, 0, 8, 0, 0, 2, 0, 6, 7],
     [8, 0, 9, 0, 0, 0, 0, 2, 3],
     [0, 0, 6, 0, 0, 0, 0, 0, 1],
     [0, 1, 0, 0, 0, 4, 8, 0, 0],
     [0, 6, 0, 0, 0, 0, 2, 8, 4],
     [0, 8, 0, 0, 0, 0, 0, 0, 0],
     [0, 0, 0, 0, 8, 6, 1, 7, 0]],
    true) := by decide

theorem hvA1_5 :
    hiddenValueStep candsA1 8 5 ([[0, 3, 4, 6, 0, 0, 9, 0, 2],
     [6, 0, 2, 0, 9, 0, 0, 0, 0],
     [0, 0, 8, 0, 0, 2, 0, 6, 7],
     [8, 0, 9, 0, 0, 0, 0, 2, 3],
     [0, 0, 6, 0, 0, 0, 0, 0, 1],
     [0, 1, 0, 0, 0, 4, 8, 0, 0],
     [0, 6, 0, 0, 0, 0, 2, 8, 4],
     [0, 8, 0, 0, 0, 0, 0, 0, 0],
     [0, 0, 0, 0, 8, 6, 1, 7, 0]],
    true) =
    ([[0, 3, 4, 6, 0, 0, 9, 0, 2],
     [6, 0, 2, 0, 9, 0, 0, 0, 0],
     [0, 0, 8, 0, 0, 2, 0, 6, 7],
     [8, 0, 9, 0, 0, 0, 0, 2, 3],
     [0, 0, 6, 0, 0, 0, 0, 0, 1],
     [0, 1, 0, 0, 0, 4, 8, 0, 0],
     [0, 6, 0, 0, 0, 0, 2, 8, 4],
     [0, 8, 0, 0, 0, 0, 0, 0, 0],
     [0, 0, 0, 0, 8, 6, 1, 7, 0]],
    true) := by decide

theorem hvA1_6 :
    hiddenValueStep candsA1 8 6 ([[0, 3, 4, 6, 0, 0, 9, 0, 2],
     [6, 0, 2, 0, 9, 0, 0, 0, 0],
     [0, 0, 8, 0, 0, 2, 0, 6, 7],
     [8, 0, 9, 0, 0, 0, 0, 2, 3],
     [0, 0, 6, 0, 0, 0, 0, 0, 1],
     [0, 1, 0, 0, 0, 4, 8, 0, 0],
     [0, 6, 0, 0, 0, 0, 2, 8, 4],
     [0, 8, 0, 0, 0, 0, 0, 0, 0],
     [0, 0, 0, 0, 8, 6, 1, 7, 0]],
    true) =
    ([[0, 3, 4, 6, 0, 0, 9, 0, 2],
     [6, 0, 2, 0, 9, 0, 0, 0, 0],
     [0, 0, 8, 0, 0, 2, 0, 6, 7],
     [8, 0, 9, 0, 0, 0, 0, 2, 3],
     [0, 0, 6, 0, 0, 0, 0, 0, 1],
     [0, 1, 0, 0, 0, 4, 8, 0, 0],
     [0, 6, 0, 0, 0, 0, 2, 8, 4],
     [0, 8, 0, 0, 0, 0, 0, 0, 0],
     [0, 0, 0, 0, 8, 6, 1, 7, 0]],
    true) := by decide

theorem hvA1_7 :
    hiddenValueStep candsA1 8 7 ([[0, 3, 4, 6, 0, 0, 9, 0, 2],
     [6, 0, 2, 0, 9, 0, 0, 0, 0],
     [0, 0, 8, 0, 0, 2, 0, 6, 7],
     [8, 0, 9, 0, 0, 0, 0, 2, 3],
     [0, 0, 6, 0, 0, 0, 0, 0, 1],
     [0, 1, 0, 0, 0, 4, 8, 0, 0],
     [0, 6, 0, 0, 0, 0, 2, 8, 4],
     [0, 8, 0, 0, 0, 0, 0, 0, 0],
     [0, 0, 0, 0, 8, 6, 1, 7, 0]],
    true) =
    (exampleA_out, true) := by decide

theorem hvA1_8 :
    hiddenValueStep candsA1 8 8 (exampleA_out, true) =
    (exampleA_out, true) := by decide


theorem onePassA1_eq : onePass exampleA = (exampleA_out, true) := by
  simp only [onePass, candsA1_eq, c0A1_eq, nakedA1_eq, hiddenStep_expand,
    hvA1_0, hvA1_1, hvA1_2, hvA1_3, hvA1_4, hvA1_5, hvA1_6, hvA1_7, hvA1_8, Bool.false_eq_true, if_false]


theorem candsA2_eq : candsList exampleA_out = candsA2 := by decide

theorem c0A2_eq : ((emptyCells exampleA_out).getLastD (8, 8)).2 = 3 := by decide

theorem nakedA2_eq : nakedStep candsA2 exampleA_out = (exampleA_out, false) := by decide

theorem hvA2_0 :
    hiddenValueStep candsA2 3 0 (exampleA_out, false) =
    (exampleA_out, false) := by decide

theorem hvA2_1 :
    hiddenValueStep candsA2 3 1 (exampleA_out, false) =
    (exampleA_out, false) := by decide

theorem hvA2_2 :
    hiddenValueStep candsA2 3 2 (exampleA_out, false) =
    (exampleA_out, false) := by decide

theorem hvA2_3 :
    hiddenValueStep candsA2 3 3 (exampleA_out, false) =
    (exampleA_out, false) := by decide

theorem hvA2_4 :
    hiddenValueStep candsA2 3 4 (exampleA_out, false) =
    (exampleA_out, false) := by decide

theorem hvA2_5 :
    hiddenValueStep candsA2 3 5 (exampleA_out, false) =
    (exampleA_out, false) := by decide

theorem hvA2_6 :
    hiddenValueStep candsA2 3 6 (exampleA_out, false) =
    (exampleA_out, false) := by decide

theorem hvA2_7 :
    hiddenValueStep candsA2 3 7 (exampleA_out, false) =
    (exampleA_out, false) := by decide

theorem hvA2_8 :
    hiddenValueStep candsA2 3 8 (exampleA_out, false) =
    (exampleA_out, false) := by decide


theorem onePassA2_eq : onePass exampleA_out = (exampleA_out, false) := by
  simp only [onePass, candsA2_eq, c0A2_eq, nakedA2_eq, hiddenStep_expand,
    hvA2_0, hvA2_1, hvA2_2, hvA2_3, hvA2_4, hvA2_5, hvA2_6, hvA2_7, hvA2_8, Bool.false_eq_true, if_false]


theorem candsB1_eq : candsList exampleB = candsB1 := by decide

theorem c0B1_eq : ((emptyCells exampleB).getLastD (8, 8)).2 = 8 := by decide

theorem nakedB1_eq : nakedStep candsB1 exampleB = (exampleB, false) := by decide

theorem hvB1_0 :
    hiddenValueStep candsB1 8 0 (exampleB, false) =
    (exampleB_out, true) := by decide

theorem hvB1_1 :
    hiddenValueStep candsB1 8 1 (exampleB_out, true) =
    (exampleB_out, true) := by decide

theorem hvB1_2 :
    hiddenValueStep candsB1 8 2 (exampleB_out, true) =
    (exampleB_out, true) := by decide

theorem hvB1_3 :
    hiddenValueStep candsB1 8 3 (exampleB_out, true) =
    (exampleB_out, true) := by decide

theorem hvB1_4 :
    hiddenValueStep candsB1 8 4 (exampleB_out, true) =
    (exampleB_out, true) := by decide

theorem hvB1_5 :
    hiddenValueStep candsB1 8 5 (exampleB_out, true) =
    (exampleB_out, true) := by decide

theorem hvB1_6 :
    hiddenValueStep candsB1 8 6 (exampleB_out, true) =
    (exampleB_out, true) := by decide

theorem hvB1_7 :
    hiddenValueStep candsB1 8 7 (exampleB_out, true) =
    (exampleB_out, true) := by decide

theorem hvB1_8 :
    hiddenValueStep candsB1 8 8 (exampleB_out, true) =
    (exampleB_out, true) := by decide


theorem onePassB1_eq : onePass exampleB = (exampleB_out, true) := by
  simp only [onePass, candsB1_eq, c0B1_eq, nakedB1_eq, hiddenStep_expand,
    hvB1_0, hvB1_1, hvB1_2, hvB1_3, hvB1_4, hvB1_5, hvB1_6, hvB1_7, hvB1_8, Bool.false_eq_true, if_false]


theorem candsK0_eq : candsList cycleK0 = candsK0 := by decide

theorem c0K0_eq : ((emptyCells cycleK0).getLastD (8, 8)).2 = 7 := by decide

theorem nakedK0_eq : nakedStep candsK0 cycleK0 = (cycleK0, false) := by decide

theorem hvK0_0 :
    hiddenValueStep candsK0 7 0 (cycleK0, false) =
    (cycleK0, false) := by decide

theorem hvK0_1 :
    hiddenValueStep candsK0 7 1 (cycleK0, false) =
    (cycleK0, false) := by decide

theorem hvK0_2 :
    hiddenValueStep candsK0 7 2 (cycleK0, false) =
    (cycleK0, false) := by decide

theorem hvK0_3 :
    hiddenValueStep candsK0 7 3 (cycleK0, false) =
    ([[0, 7, 0, 0, 0, 3, 0, 0, 4],
     [0, 0, 8, 0, 0, 1, 0, 7, 4],
     [0, 0, 4, 0, 0, 4, 9, 0, 8],
     [0, 0, 3, 0, 6, 7, 0, 8, 9],
     [0, 0, 0, 0, 0, 8, 6, 0, 7],
     [0, 8, 6, 0, 0, 2, 4, 0, 6],
     [7, 6, 1, 2, 3, 9, 5, 4, 8],
     [0, 0, 4, 1, 8, 5, 0, 0, 6],
     [8, 5, 6, 8, 4, 6, 7, 9, 6]],
    true) := by decide

theorem hvK0_4 :
    hiddenValueStep candsK0 7 4 ([[0, 7, 0, 0, 0, 3, 0, 0, 4],
     [0, 0, 8, 0, 0, 1, 0, 7, 4],
     [0, 0, 4, 0, 0, 4, 9, 0, 8],
     [0, 0, 3, 0, 6, 7, 0, 8, 9],
     [0, 0, 0, 0, 0, 8, 6, 0, 7],
     [0, 8, 6, 0, 0, 2, 4, 0, 6],
     [7, 6, 1, 2, 3, 9, 5, 4, 8],
     [0, 0, 4, 1, 8, 5, 0, 0, 6],
     [8, 5, 6, 8, 4, 6, 7, 9, 6]],
    true) =
    ([[0, 7, 0, 0, 0, 3, 0, 0, 4],
     [0, 0, 8, 0, 0, 1, 0, 7, 4],
     [0, 0, 4, 0, 0, 4, 9, 0, 8],
     [0, 0, 3, 0, 6, 7, 0, 8, 9],
     [0, 0, 0, 0, 0, 8, 6, 0, 7],
     [0, 8, 6, 0, 0, 2, 4, 0, 6],
     [7, 6, 1, 2, 3, 9, 5, 4, 8],
     [0, 0, 4, 1, 8, 5, 0, 0, 6],
     [8, 5, 6, 8, 4, 6, 7, 9, 6]],
    true) := by decide

theorem hvK0_5 :
    hiddenValueStep candsK0 7 5 ([[0, 7, 0, 0, 0, 3, 0, 0, 4],
     [0, 0, 8, 0, 0, 1, 0, 7, 4],
     [0, 0, 4, 0, 0, 4, 9, 0, 8],
     [0, 0, 3, 0, 6, 7, 0, 8, 9],
     [0, 0, 0, 0, 0, 8, 6, 0, 7],
     [0, 8, 6, 0, 0, 2, 4, 0, 6],
     [7, 6, 1, 2, 3, 9, 5, 4, 8],
     [0, 0, 4, 1, 8, 5, 0, 0, 6],
     [8, 5, 6, 8, 4, 6, 7, 9, 6]],
    true) =
    ([[0, 7, 0, 0, 0, 3, 0, 0, 4],
     [0, 0, 8, 0, 0, 1, 0, 7, 4],
     [0, 0, 4, 0, 0, 4, 9, 0, 8],
     [0, 0, 3, 0, 6, 7, 0, 8, 9],
     [0, 0, 0, 0, 0, 8, 6, 0, 7],
     [0, 8, 6, 0, 0, 2, 4, 0, 6],
     [7, 6, 1, 2, 3, 9, 5, 4, 8],
     [0, 0, 4, 1, 8, 5, 0, 0, 6],
     [8, 5, 6, 8, 4, 6, 7, 9, 6]],
    true) := by decide

theorem hvK0_6 :
    hiddenValueStep candsK0 7 6 ([[0, 7, 0, 0, 0, 3, 0, 0, 4],
     [0, 0, 8, 0, 0, 1, 0, 7, 4],
     [0, 0, 4, 0, 0, 4, 9, 0, 8],
     [0, 0, 3, 0, 6, 7, 0, 8, 9],
     [0, 0, 0, 0, 0, 8, 6, 0, 7],
     [0, 8, 6, 0, 0, 2, 4, 0, 6],
     [7, 6, 1, 2, 3, 9, 5, 4, 8],
     [0, 0, 4, 1, 8, 5, 0, 0, 6],
     [8, 5, 6, 8, 4, 6, 7, 9, 6]],
    true) =
    (cycleK1, true) := by decide

theorem hvK0_7 :
    hiddenValueStep candsK0 7 7 (cycleK1, true) =
    (cycleK1, true) := by decide

theorem hvK0_8 :
    hiddenValueStep candsK0 7 8 (cycleK1, true) =
    (cycleK1, true) := by decide


theorem onePassK0_eq : onePass cycleK0 = (cycleK1, true) := by
  simp only [onePass, candsK0_eq, c0K0_eq, nakedK0_eq, hiddenStep_expand,
    hvK0_0, hvK0_1, hvK0_2, hvK0_3, hvK0_4, hvK0_5, hvK0_6, hvK0_7, hvK0_8, Bool.false_eq_true, if_false]


theorem candsK1_eq : candsList cycleK1 = candsK1 := by decide

theorem c0K1_eq : ((emptyCells cycleK1).getLastD (8, 8)).2 = 7 := by decide

theorem nakedK1_eq : nakedStep candsK1 cycleK1 = (cycleK1, false) := by decide

theorem hvK1_0 :
    hiddenValueStep candsK1 7 0 (cycleK1, false) =
    (cycleK1, false) := by decide

theorem hvK1_1 :
    hiddenValueStep candsK1 7 1 (cycleK1, false) =
    (cycleK1, false) := by decide

theorem hvK1_2 :
    hiddenValueStep candsK1 7 2 (cycleK1, false) =
    (cycleK1, false) := by decide

theorem hvK1_3 :
    hiddenValueStep candsK1 7 3 (cycleK1, false) =
    ([[0, 7, 0, 0, 0, 3, 0, 0, 4],
     [0, 0, 8, 0, 0, 1, 0, 7, 4],
     [0, 0, 4, 0, 0, 4, 9, 0, 8],
     [0, 0, 3, 0, 6, 7, 0, 8, 9],
     [0, 0, 0, 0, 0, 8, 6, 0, 7],
     [0, 8, 6, 0, 0, 2, 4, 0, 6],
     [7, 6, 1, 2, 3, 9, 5, 4, 8],
     [0, 0, 4, 1, 8, 5, 0, 0, 6],
     [8, 5, 6, 7, 4, 6, 7, 9, 6]],
    true) := by decide

theorem hvK1_4 :
    hiddenValueStep candsK1 7 4 ([[0, 7, 0, 0, 0, 3, 0, 0, 4],
     [0, 0, 8, 0, 0, 1, 0, 7, 4],
     [0, 0, 4, 0, 0, 4, 9, 0, 8],
     [0, 0, 3, 0, 6, 7, 0, 8, 9],
     [0, 0, 0, 0, 0, 8, 6, 0, 7],
     [0, 8, 6, 0, 0, 2, 4, 0, 6],
     [7, 6, 1, 2, 3, 9, 5, 4, 8],
     [0, 0, 4, 1, 8, 5, 0, 0, 6],
     [8, 5, 6, 7, 4, 6, 7, 9, 6]],
    true) =
    ([[0, 7, 0, 0, 0, 3, 0, 0, 4],
     [0, 0, 8, 0, 0, 1, 0, 7, 4],
     [0, 0, 4, 0, 0, 4, 9, 0, 8],
     [0, 0, 3, 0, 6, 7, 0, 8, 9],
     [0, 0, 0, 0, 0, 8, 6, 0, 7],
     [0, 8, 6, 0, 0, 2, 4, 0, 6],
     [7, 6, 1, 2, 3, 9, 5, 4, 8],
     [0, 0, 4, 1, 8, 5, 0, 0, 6],
     [8, 5, 6, 7, 4, 6, 7, 9, 6]],
    true) := by decide

theorem hvK1_5 :
    hiddenValueStep candsK1 7 5 ([[0, 7, 0, 0, 0, 3, 0, 0, 4],
     [0, 0, 8, 0, 0, 1, 0, 7, 4],
     [0, 0, 4, 0, 0, 4, 9, 0, 8],
     [0, 0, 3, 0, 6, 7, 0, 8, 9],
     [0, 0, 0, 0, 0, 8, 6, 0, 7],
     [0, 8, 6, 0, 0, 2, 4, 0, 6],
     [7, 6, 1, 2, 3, 9, 5, 4, 8],
     [0, 0, 4, 1, 8, 5, 0, 0, 6],
     [8, 5, 6, 7, 4, 6, 7, 9, 6]],
    true) =
    ([[0, 7, 0, 0, 0, 3, 0, 0, 4],
     [0, 0, 8, 0, 0, 1, 0, 7, 4],
     [0, 0, 4, 0, 0, 4, 9, 0, 8],
     [0, 0, 3, 0, 6, 7, 0, 8, 9],
     [0, 0, 0, 0, 0, 8, 6, 0, 7],
     [0, 8, 6, 0, 0, 2, 4, 0, 6],
     [7, 6, 1, 2, 3, 9, 5, 4, 8],
     [0, 0, 4, 1, 8, 5, 0, 0, 6],
     [8, 5, 6, 7, 4, 6, 7, 9, 6]],
    true) := by decide

theorem hvK1_6 :
    hiddenValueStep candsK1 7 6 ([[0, 7, 0, 0, 0, 3, 0, 0, 4],
     [0, 0, 8, 0, 0, 1, 0, 7, 4],
     [0, 0, 4, 0, 0, 4, 9, 0, 8],
     [0, 0, 3, 0, 6, 7, 0, 8, 9],
     [0, 0, 0, 0, 0, 8, 6, 0, 7],
     [0, 8, 6, 0, 0, 2, 4, 0, 6],
     [7, 6, 1, 2, 3, 9, 5, 4, 8],
     [0, 0, 4, 1, 8, 5, 0, 0, 6],
     [8, 5, 6, 7, 4, 6, 7, 9, 6]],
    true) =
    ([[0, 7, 0, 0, 0, 3, 0, 0, 4],
     [0, 0, 8, 0, 0, 1, 0, 7, 4],
     [0, 0, 4, 0, 0, 4, 9, 0, 8],
     [0, 0, 3, 0, 6, 7, 0, 8, 9],
     [0, 0, 0, 0, 0, 8, 6, 0, 7],
     [0, 8, 6, 0, 0, 2, 4, 0, 6],
     [7, 6, 1, 2, 3, 9, 5, 4, 8],
     [0, 0, 4, 1, 8, 5, 0, 0, 6],
     [8, 5, 6, 7, 4, 6, 7, 9, 6]],
    true) := by decide

theorem hvK1_7 :
    hiddenValueStep candsK1 7 7 ([[0, 7, 0, 0, 0, 3, 0, 0, 4],
     [0, 0, 8, 0, 0, 1, 0, 7, 4],
     [0, 0, 4, 0, 0, 4, 9, 0, 8],
     [0, 0, 3, 0, 6, 7, 0, 8, 9],
     [0, 0, 0, 0, 0, 8, 6, 0, 7],
     [0, 8, 6, 0, 0, 2, 4, 0, 6],
     [7, 6, 1, 2, 3, 9, 5, 4, 8],
     [0, 0, 4, 1, 8, 5, 0, 0, 6],
     [8, 5, 6, 7, 4, 6, 7, 9, 6]],
    true) =
    (cycleK0, true) := by decide

theorem hvK1_8 :
    hiddenValueStep candsK1 7 8 (cycleK0, true) =
    (cycleK0, true) := by decide


theorem onePassK1_eq : onePass cycleK1 = (cycleK0, true) := by
  simp only [onePass, candsK1_eq, c0K1_eq, nakedK1_eq, hiddenStep_expand,
    hvK1_0, hvK1_1, hvK1_2, hvK1_3, hvK1_4, hvK1_5, hvK1_6, hvK1_7, hvK1_8, Bool.false_eq_true, if_false]


theorem candsS_eq : candsList solvedBase = candsS := by decide

theorem c0S_eq : ((emptyCells solvedBase).getLastD (8, 8)).2 = 8 := by decide

theorem nakedS_eq : nakedStep candsS solvedBase = (solvedBase, false) := by decide

theorem hvS_0 :
    hiddenValueStep candsS 8 0 (solvedBase, false) =
    (solvedBase, false) := by decide

theorem hvS_1 :
    hiddenValueStep candsS 8 1 (solvedBase, false) =
    (solvedBase, false) := by decide

theorem hvS_2 :
    hiddenValueStep candsS 8 2 (solvedBase, false) =
    (solvedBase, false) := by decide

theorem hvS_3 :
    hiddenValueStep candsS 8 3 (solvedBase, false) =
    (solvedBase, false) := by decide

theorem hvS_4 :
    hiddenValueStep candsS 8 4 (solvedBase, false) =
    (solvedBase, false) := by decide

theorem hvS_5 :
    hiddenValueStep candsS 8 5 (solvedBase, false) =
    (solvedBase, false) := by decide

theorem hvS_6 :
    hiddenValueStep candsS 8 6 (solvedBase, false) =
    (solvedBase, false) := by decide

theorem hvS_7 :
    hiddenValueStep candsS 8 7 (solvedBase, false) =
    (solvedBase, false) := by decide

theorem hvS_8 :
    hiddenValueStep candsS 8 8 (solvedBase, false) =
    (solvedBase, false) := by decide


theorem onePassS_eq : onePass solvedBase = (solvedBase, false) := by
  simp only [onePass, candsS_eq, c0S_eq, nakedS_eq, hiddenStep_expand,
    hvS_0, hvS_1, hvS_2, hvS_3, hvS_4, hvS_5, hvS_6, hvS_7, hvS_8, Bool.false_eq_true, if_false]

theorem saA_eq : simple_algorithm 2 exampleA = some (exampleA_out, true) := by
  simp [simple_algorithm_succ, onePassA1_eq, onePassA2_eq]

theorem saS_eq : simple_algorithm 1 solvedBase = some (solvedBase, false) := by
  simp [simple_algorithm_succ, onePassS_eq]

/-- Both cycle states make a placement every pass, so the loop never exits. -/
theorem cycle_none (n : Nat) :
    simple_algorithm n cycleK0 = none ∧ simple_algorithm n cycleK1 = none := by
  induction n with
  | zero => exact ⟨rfl, rfl⟩
  | succ n ih =>
    refine ⟨?hh1, ?hh2⟩
    · simp [simple_algorithm_succ, onePassK0_eq, ih.2]
    · simp [simple_algorithm_succ, onePassK1_eq, ih.1]

theorem btA_fails : solve_backtracking 82 exampleA_out = none := by decide

theorem pipelineA_eq : solve_pipeline 2 exampleA = exampleA_out := by
  simp [solve_pipeline, saA_eq, btA_fails]

/-- C1: refuted by evaluation.  `exampleA` satisfies the no-duplicate
invariant in every row, column and 3×3 block, `simple_algorithm` terminates
on it returning `exampleA_out` — and `exampleA_out` violates the invariant
(digit 8 sits at (0,8), (2,8) and (8,8), all in column 8): the propagation
engine does not preserve validity. -/
theorem C1_invariant_not_preserved :
    validGrid exampleA ∧ simple_algorithm 2 exampleA = some (exampleA_out, true) ∧
      ¬ validGrid exampleA_out :=
  ⟨by decide, saA_eq, by decide⟩

/-- C2: refuted by evaluation.  In the first pass on `exampleB` (whose
candidates dict is `candsB1`), digit 1 has exactly one qualifying empty
cell in row 8, namely (8, 6) — yet after the pass the digit has also been
written into the different cell (8, 8), because line 118 of the source
yields the ambient `(r, c)` instead of the qualifying cell. -/
theorem C2_hidden_single_misplaced :
    candsList exampleB = candsB1 ∧ rowHolders candsB1 exampleB 1 8 = [(8, 6)] ∧
      exampleB.get 8 8 = 0 ∧ (onePass exampleB).1.get 8 8 = 1 :=
  ⟨candsB1_eq, by decide, by decide, by rw [onePassB1_eq]; decide⟩

/-- C3: refuted by evaluation.  `exampleA` holds the given digit 7 at cell
(2, 8), but the grid returned by `simple_algorithm` holds 8 there: the
engine overwrites nonzero cells, so the output is not a more-complete
version of the input. -/
theorem C3_nonzero_cell_overwritten :
    exampleA.get 2 8 = 7 ∧ simple_algorithm 2 exampleA = some (exampleA_out, true) ∧
      exampleA_out.get 2 8 = 8 :=
  ⟨by decide, saA_eq, by decide⟩

/-- C4: refuted.  On the 9×9 digit grid `cycleK0` the pass function
oscillates forever between `cycleK0` and `cycleK1`, each pass making a
placement, so the loop of `simple_algorithm` never reaches a zero-placement
pass: for every fuel the fuelled embedding returns `none`. -/
theorem C4_simple_algorithm_diverges (fuel : Nat) : simple_algorithm fuel cycleK0 = none :=
  (cycle_none fuel).1

/-- C5: refuted by evaluation.  `exampleA` is well-formed, valid and
solvable (the complete valid grid `solvedBase` extends it), but the
propagation-plus-backtracking pipeline returns a grid that does not have
every digit exactly once in every unit (propagation corrupts the grid and
the backtracking search then fails, leaving the corrupted grid). -/
theorem C5_pipeline_output_invalid :
    WF exampleA ∧ validGrid exampleA ∧ completeValidGrid solvedBase ∧
      extendsTo exampleA solvedBase ∧ ¬ completeValidGrid (solve_pipeline 2 exampleA) := by
  refine ⟨by decide, by decide, by decide, by decide, ?hh⟩
  rw [pipelineA_eq]
  decide

/-- Witness for C7 at the concrete grid `solvedBase`. -/
theorem C7_idempotent_witness :
    simple_algorithm 1 solvedBase = some (solvedBase, false) ∧
      simple_algorithm (0 + 1) solvedBase = some (solvedBase, false) :=
  ⟨saS_eq, C7_idempotent 1 0 solvedBase solvedBase false saS_eq⟩

/-- Witness for C8 at the concrete grid `nakedWitnessGrid`, whose cell
(0, 0) is empty with candidate set [5]. -/
theorem C8_naked_single_assignment_witness :
    WF nakedWitnessGrid ∧ (0 : Nat) < 9 ∧ nakedWitnessGrid.get 0 0 = 0 ∧
      candidatesOf nakedWitnessGrid 0 0 = [5] ∧
      ((onePass nakedWitnessGrid).1.get 0 0 = 5 ∧
        onePass nakedWitnessGrid = nakedStep (candsList nakedWitnessGrid) nakedWitnessGrid) :=
  ⟨by decide, by decide, by decide, by decide,
    C8_naked_single_assignment nakedWitnessGrid 0 0 5 (by decide) (by decide) (by decide)
      (by decide) (by decide)⟩

/-- Witness for C9 at the concrete grid `solvedBase` (unchanged run, flag
`false`). -/
theorem C9_changed_flag_iff_witness :
    simple_algorithm 1 solvedBase = some (solvedBase, false) ∧
      (false = true ↔ solvedBase ≠ solvedBase) :=
  ⟨saS_eq, C9_changed_flag_iff 1 solvedBase solvedBase false saS_eq⟩

/-- Witness for C10 at the concrete grid `solvedBase`. -/
theorem C10_deterministic_witness :
    simple_algorithm 1 solvedBase = simple_algorithm 1 solvedBase :=
  C10_deterministic 1 solvedBase solvedBase rfl

end Sudoku

